import Mathlib

/-!
Shallow embedding of `src/lib/models/fully_connected.py` (class
`FullyConnectedModel`) from the `iterative_inference` repository, together
with theorems settling the specification claims about it.

Conventions of the embedding:
* Python machine behaviour that matters to the claims is made explicit:
  list indexing returns `Except PyError` (out-of-range raises `IndexError`),
  an unresolved module-level name raises `NameError`, iterating a bound
  method object raises `TypeError`.
* Tensors are modelled over `ℚ` (the numeric kernels themselves are external
  collaborators per the spec; `torch.exp` is passed in as an abstract
  elementwise function).
* Sub-components of the repository that are not part of the provided source
  (latent levels, distribution wrappers, `LayerNorm`) are modelled from the
  spec at their documented boundary; each such definition carries a
  `Modelled from the spec:` doc comment.
-/

namespace IterInf

/-- Python runtime conditions relevant to `fully_connected.py`.
`configurationError` is the descriptive configuration-error condition the
spec calls for; the source never raises it — the constructor exists only so
that the spec-side predicate can be stated and refuted. -/
inductive PyError where
  | indexError
  | nameError (n : String)
  | notImplementedError
  | typeError (msg : String)
  | configurationError (msg : String)
deriving DecidableEq

/-- Python list indexing `l[i]`: out of range raises `IndexError`. -/
def pyGet {α : Type} (l : List α) (i : Nat) : Except PyError α :=
  match l.get? i with
  | some x => .ok x
  | none => .error .indexError

/-- The `latent_config` dict built for one level (lines 50–54 of the source). -/
structure LatentConfig where
  n_in : List Nat
  n_variables : Nat
  inference_procedure : List String
deriving DecidableEq

/-- An `inference_config` / `generative_config` dict (lines 58–68).
`n_in` is `none` for the inference config (Python `None`). -/
structure NetConfig where
  n_in : Option Nat
  n_units : Nat
  connection_type : String
  non_linearity : String
  batch_norm : Bool
deriving DecidableEq

/-- The `level_config` dict handed to `FullyConnectedLatentLevel` (lines 48–70). -/
structure LevelConfig where
  latent_config : LatentConfig
  inference_procedure : List String
  inference_config : NetConfig
  generative_config : NetConfig
deriving DecidableEq

/-- The keyword arguments of `_construct` (lines 21–24 of the source). -/
structure ModelConfig where
  inference_input_form : List String
  constant_variances_gen : Bool
  n_latent : List Nat
  n_layers_inf : List Nat
  n_layers_gen : List Nat
  n_units_inf : List Nat
  n_units_gen : List Nat
  non_linearity_inf : String
  non_linearity_gen : String
  connection_type_inf : String
  connection_type_gen : String
  batch_norm_inf : Bool
  batch_norm_gen : Bool
deriving DecidableEq

/-- Body of one iteration of the `_construct` loop (lines 47–70), with the
list subscripts performed in the source's evaluation order:
`n_units_inf[i]`, `n_units_gen[i+1]` (line 51), `n_latent[i]` (line 52),
`n_units_inf[i]` (line 59), `n_latent[i+1]` (line 64),
`n_units_gen[i+1]` (line 65). -/
def constructLevel (c : ModelConfig) (level_ind : Nat) : Except PyError LevelConfig := do
  let nui ← pyGet c.n_units_inf level_ind
  let nug ← pyGet c.n_units_gen (level_ind + 1)
  let nvar ← pyGet c.n_latent level_ind
  let nui2 ← pyGet c.n_units_inf level_ind
  let genIn ← pyGet c.n_latent (level_ind + 1)
  let genUnits ← pyGet c.n_units_gen (level_ind + 1)
  .ok { latent_config := { n_in := [nui, nug],
                           n_variables := nvar,
                           inference_procedure := c.inference_input_form },
        inference_procedure := c.inference_input_form,
        inference_config := { n_in := none,
                              n_units := nui2,
                              connection_type := c.connection_type_inf,
                              non_linearity := c.non_linearity_inf,
                              batch_norm := c.batch_norm_inf },
        generative_config := { n_in := some genIn,
                               n_units := genUnits,
                               connection_type := c.connection_type_gen,
                               non_linearity := c.non_linearity_gen,
                               batch_norm := c.batch_norm_gen } }

/-- Run a fallible builder over a list of indices, stopping at the first
raised condition — the behaviour of the Python `for` loop that appends one
constructed level per iteration. -/
def buildLevels (f : Nat → Except PyError LevelConfig) : List Nat → Except PyError (List LevelConfig)
  | [] => .ok []
  | i :: is => do
      let lc ← f i
      let lcs ← buildLevels f is
      .ok (lc :: lcs)

/-- `_construct` (lines 21–71): `for level_ind in range(len(n_latent))`,
building one `FullyConnectedLatentLevel` config per iteration. -/
def construct (c : ModelConfig) : Except PyError (List LevelConfig) :=
  buildLevels (constructLevel c) (List.range c.n_latent.length)

/-- Spec-side predicate, from the claim's words (not from the source):
construction fails with a descriptive configuration-error condition. -/
def failsWithConfigurationError (c : ModelConfig) : Bool :=
  match construct c with
  | .error (.configurationError _) => true
  | _ => false

/-- A consistent two-level configuration in the sense of the spec:
`n_latent`, `n_layers_inf`, `n_units_inf` of length `L = 2`;
`n_layers_gen`, `n_units_gen` of length `L + 1 = 3`. -/
def consistentConfig : ModelConfig :=
  { inference_input_form := ["observation"],
    constant_variances_gen := false,
    n_latent := [64, 32],
    n_layers_inf := [2, 2],
    n_layers_gen := [2, 2, 1],
    n_units_inf := [512, 256],
    n_units_gen := [512, 256, 1],
    non_linearity_inf := "elu",
    non_linearity_gen := "elu",
    connection_type_inf := "highway",
    connection_type_gen := "sequential",
    batch_norm_inf := false,
    batch_norm_gen := false }

/-- An inconsistent configuration: `n_latent` has length 2 but
`n_units_inf` has length 1 (the spec requires length 2). -/
def inconsistentConfig : ModelConfig :=
  { consistentConfig with n_units_inf := [512] }

/-! ### Module namespace and tensors -/

/-- The names bound at module level by the import statements of
`fully_connected.py` (lines 1–7): `import torch.nn as nn` binds only `nn`,
and each `from X import Y` line binds only `Y`. The bare name `torch` is
never bound. -/
def moduleBoundNames : List String :=
  ["nn", "Model", "FullyConnectedLatentLevel", "FullyConnectedNetwork",
   "FullyConnectedLayer", "Normal", "Bernoulli", "Multinomial", "LayerNorm"]

/-- Whether the name `torch` resolves inside the module. -/
def torchInScope : Bool := moduleBoundNames.contains "torch"

/-- A 2-D tensor `[batch, features]` over exact rationals. -/
abbrev Tensor2 := List (List ℚ)

/-- A 3-D tensor `[batch, samples, features]`. -/
abbrev Tensor3 := List (List (List ℚ))

/-- An observation as passed to `_output_error`: Python distinguishes the
2-D and the 3-D case by `len(observation.data.shape)` (line 109). -/
inductive ObsTensor where
  | d2 (x : Tensor2)
  | d3 (x : Tensor3)

/-- The output-distribution families of `lib.distributions`. -/
inductive DistKind where
  | normal
  | bernoulli
  | multinomial
deriving DecidableEq

/-- Modelled from the spec: the output Distribution wrapper
(`lib.distributions`, not under `src/`) holds current parameter tensors and
exposes `mean` and `log_var` accessors; `detach()` returns the same values
without gradient tracking, so it is the identity on values here. -/
structure OutputDist where
  kind : DistKind
  mean : Tensor3
  log_var : Tensor3

/-- `observation - 0.5` (line 83), elementwise on a 2-D tensor. -/
def subScalar2 (t : Tensor2) (c : ℚ) : Tensor2 :=
  t.map (fun row => row.map (fun x => x - c))

/-- Elementwise binary operation on equal-shaped 3-D tensors. -/
def zip3 (f : ℚ → ℚ → ℚ) (a b : Tensor3) : Tensor3 :=
  List.zipWith (fun p q => List.zipWith (fun r s => List.zipWith f r s) p q) a b

/-- Elementwise map on a 3-D tensor. -/
def map3 (f : ℚ → ℚ) (a : Tensor3) : Tensor3 :=
  a.map (fun p => p.map (fun r => r.map f))

/-- Sum of feature vectors, used for the sample-dimension mean. -/
def vecAdd (a b : List ℚ) : List ℚ := List.zipWith (· + ·) a b

/-- `.mean(dim=1)` (line 119): average the sample dimension away. -/
def meanDim1 (t : Tensor3) : Tensor2 :=
  t.map (fun samples =>
    match samples with
    | [] => []
    | v :: rest => (rest.foldl vecAdd v).map (fun x => x / (samples.length : ℚ)))

/-- `torch.cat(ts, dim=1)` for 2-D tensors: the callee expression
`torch.cat` is evaluated first, and since `torch` is unbound in the module
the call raises `NameError` before touching its arguments. The bound branch
records what the call would compute (rowwise concatenation). -/
def torchCatDim1 (ts : List Tensor2) : Except PyError Tensor2 :=
  if torchInScope then
    .ok (match ts with
         | [] => []
         | t :: rest => rest.foldl (fun acc u => List.zipWith (· ++ ·) acc u) t)
  else .error (.nameError "torch")

/-- `_output_error` (lines 100–120). The detached mean is read, a 2-D
observation is unsqueezed and repeated to `n_samples = mean.shape[1]`, and
the branch on `type(self.output_dist)` runs: the Normal branch evaluates
`observation - output_mean`, then `torch.exp(...)` — whose callee lookup
raises `NameError` since `torch` is unbound; the Bernoulli and Multinomial
branches raise `NotImplementedError`. `texp` stands for the external
elementwise `torch.exp` kernel. -/
def output_error (d : OutputDist) (obs : ObsTensor) (texp : ℚ → ℚ) :
    Except PyError Tensor2 :=
  let output_mean := d.mean
  let n_samples := (output_mean.headD []).length
  let obs3 : Tensor3 :=
    match obs with
    | .d2 x => x.map (fun row => List.replicate n_samples row)
    | .d3 x => x
  match d.kind with
  | .normal =>
      let output_log_var := d.log_var
      let diff := zip3 (· - ·) obs3 output_mean
      if torchInScope then
        .ok (meanDim1 (zip3 (· / ·) diff
              (map3 texp (map3 (fun x => x + 1 / 10000000) output_log_var))))
      else .error (.nameError "torch")
  | .bernoulli => .error .notImplementedError
  | .multinomial => .error .notImplementedError

/-- Modelled from the spec: the boundary state of the bottom level's latent
Distribution (`self.latent_levels[0].latent`, from `lib.modules.latent_levels`,
not under `src/`): `approx_posterior_gradients()`,
`approx_posterior_parameters()` and `error()` return current tensors. -/
structure Latent0State where
  approx_posterior_gradients : List Tensor2
  approx_posterior_parameters : List Tensor2
  error : Tensor2

/-- The `'gradient'` contribution (lines 85–90): normalized gradients and
parameters, concatenated. Every `torch.cat` raises `NameError` here.
`ln` stands for the external `LayerNorm` module. -/
def gradientContribution (lat : Latent0State) (ln : Tensor2 → Tensor2) :
    Except PyError Tensor2 := do
  let grads ← torchCatDim1 (lat.approx_posterior_gradients.map ln)
  let params ← torchCatDim1 (lat.approx_posterior_parameters.map ln)
  torchCatDim1 [grads, params]

/-- The `'error'` contribution (lines 92–97): `_output_error` is evaluated
first (inside the list literal on line 92), then the normalized errors and
parameters would be concatenated. -/
def errorContribution (lat : Latent0State) (d : OutputDist) (obs : Tensor2)
    (ln : Tensor2 → Tensor2) (texp : ℚ → ℚ) : Except PyError Tensor2 := do
  let oe ← output_error d (.d2 obs) texp
  let errs ← torchCatDim1 ([oe, lat.error].map ln)
  let params ← torchCatDim1 (lat.approx_posterior_parameters.map ln)
  torchCatDim1 [errs, params]

/-- `_get_encoding_form` (lines 74–98): build the list `encoding` in the
fixed order observation, gradient, error, then return `encoding[0]` when it
has exactly one element and `torch.cat(encoding, dim=1)` otherwise. -/
def get_encoding_form (proc : List String) (lat : Latent0State) (d : OutputDist)
    (obs : Tensor2) (ln : Tensor2 → Tensor2) (texp : ℚ → ℚ) :
    Except PyError Tensor2 := do
  let enc1 : List Tensor2 :=
    if proc.contains "observation" then [subScalar2 obs (1 / 2)] else []
  let enc2 ←
    if proc.contains "gradient" then do
      let g ← gradientContribution lat ln
      pure (enc1 ++ [g])
    else pure enc1
  let enc3 ←
    if proc.contains "error" then do
      let e ← errorContribution lat d obs ln texp
      pure (enc2 ++ [e])
    else pure enc2
  match enc3 with
  | [e] => pure e
  | es => torchCatDim1 es

/-! ### Parameter partitions -/

/-- A Python value that `list(...)` may be applied to when collecting
parameters: the generator returned by calling `module.parameters()`, or the
bound-method object obtained by merely naming `module.parameters` without
calling it. `list` of a bound method raises `TypeError`. -/
inductive ParamSource where
  | generator (ids : List Nat)
  | boundMethod (ids : List Nat)

/-- Python `list(...)` applied to a `ParamSource`. -/
def pyListOf : ParamSource → Except PyError (List Nat)
  | .generator ids => .ok ids
  | .boundMethod _ => .error (.typeError "method object is not iterable")

/-- Modelled from the spec: the parameter inventory of a constructed model,
with parameters named by identifiers. Per-level inference/generative
parameter lists come from each `FullyConnectedLatentLevel`
(`lib.modules.latent_levels`, not under `src/`); the output network, the
output mean sub-network and the output log-variance sub-network each expose
`parameters()`. -/
structure ParamModel where
  level_inf_params : List (List Nat)
  level_gen_params : List (List Nat)
  output_network_params : List Nat
  output_mean_params : List Nat
  output_log_var_params : List Nat
  dist_kind : DistKind

/-- `inference_parameters` (lines 159–166): extend a fresh list with every
level's inference parameters. -/
def inference_parameters (m : ParamModel) : List Nat :=
  m.level_inf_params.flatten

/-- `generative_parameters` (lines 168–179): every level's generative
parameters, then `list(self.output_network.parameters())` (line 175,
called), then `list(self.output_mean.parameters)` (line 176 — the method is
never called, so `list` is applied to the bound-method object), then, for a
Normal output distribution, `list(self.output_log_var.parameters())`. -/
def generative_parameters (m : ParamModel) : Except PyError (List Nat) := do
  let levelParams := m.level_gen_params.flatten
  let netParams ← pyListOf (.generator m.output_network_params)
  let meanParams ← pyListOf (.boundMethod m.output_mean_params)
  let base := levelParams ++ netParams ++ meanParams
  if m.dist_kind = .normal then
    let lvParams ← pyListOf (.generator m.output_log_var_params)
    return base ++ lvParams
  else
    return base

/-! ### Generation and re-initialization -/

/-- A flat value tensor, the currency of decodings and latent states in the
generation pathway (contents are opaque to the orchestration code). -/
abbrev TVec := List ℚ

/-- Modelled from the spec: the mutable internal state of one latent level —
its current latent variable value plus whatever else the level keeps. -/
structure LatentSt where
  latent : TVec
  aux : TVec

/-- Modelled from the spec: one `FullyConnectedLatentLevel`
(`lib.modules.latent_levels`, not under `src/`). `genF` is its
`generate(decoding_from_above, gen, n_samples)` boundary method, returning
the decoding for the level below and the updated internal state;
`latent_init` is the fixed initial/uninformative state its latent variable
is reset to by `latent.re_init()`; `st` is its current state. -/
structure Level where
  genF : Option TVec → Bool → Nat → LatentSt → TVec × LatentSt
  latent_init : TVec
  st : LatentSt

/-- Modelled from the spec (components other than the orchestration): the
model object as `generate`/`re_init` see it. `latent_levels` is ordered
bottom (index 0) to top; `output_network`, `output_mean` and
`output_log_var` are the external sub-networks; `sampleF` is the output
Distribution's `sample()` as a function of its current parameters. -/
structure FCModel where
  latent_levels : List Level
  output_network : Option TVec → TVec
  output_mean : TVec → TVec
  output_log_var : TVec → TVec
  dist_kind : DistKind
  dist_mean : TVec
  dist_log_var : TVec
  sampleF : DistKind → TVec → TVec → TVec

/-- One iteration of the `for level in self.latent_levels[::-1]` loop
(lines 143–144): the accumulator carries the decoding so far and the
already-processed levels (which end up back in bottom-to-top order). -/
def genStep (gen : Bool) (n_samples : Nat) (acc : Option TVec × List Level)
    (lvl : Level) : Option TVec × List Level :=
  let r := lvl.genF acc.1 gen n_samples lvl.st
  (some r.1, { lvl with st := r.2 } :: acc.2)

/-- `generate` (lines 134–149): iterate the levels in reversed order seeded
with `None`, feed the bottom decoding through the output network, set the
output distribution's mean, set its log-variance only when the output
distribution is Normal, and return a sample from the output distribution. -/
def generate (m : FCModel) (gen : Bool) (n_samples : Nat) : TVec × FCModel :=
  let folded := m.latent_levels.reverse.foldl (genStep gen n_samples) (none, [])
  let decoding := m.output_network folded.1
  let mean := m.output_mean decoding
  let log_var := if m.dist_kind = .normal then m.output_log_var decoding
                 else m.dist_log_var
  let m1 : FCModel := { m with latent_levels := folded.2,
                               dist_mean := mean,
                               dist_log_var := log_var }
  (m1.sampleF m1.dist_kind m1.dist_mean m1.dist_log_var, m1)

/-- Top-down decoding described structurally: the level above is processed
first (seeded by `none` above the top level) and its decoding is handed to
the level below. Used to characterize `generate`'s reversed fold. -/
def decodeLevels (gen : Bool) (n_samples : Nat) : List Level → Option TVec × List Level
  | [] => (none, [])
  | l :: ls =>
      let rest := decodeLevels gen n_samples ls
      let r := l.genF rest.1 gen n_samples l.st
      (some r.1, { l with st := r.2 } :: rest.2)

/-- Modelled from the spec: `level.latent.re_init()` resets the level's
latent variable to its initial state. -/
def latentReInit (l : Level) : Level :=
  { l with st := { l.st with latent := l.latent_init } }

/-- `re_init` (lines 151–157): one unconditional prior-generation pass
(`generate(gen=True)`, default `n_samples=1`), then re-initialize every
level's latent variable. -/
def re_init (m : FCModel) : FCModel :=
  let m1 := (generate m true 1).2
  { m1 with latent_levels := m1.latent_levels.map latentReInit }

/-! ### Concrete fixtures for closed evaluations -/

/-- A concrete bottom-level latent state. -/
def someLatentState : Latent0State :=
  { approx_posterior_gradients := [[[0]]],
    approx_posterior_parameters := [[[0]]],
    error := [[0]] }

/-- A concrete Normal output distribution with one batch element, one
sample, one feature. -/
def someNormalDist : OutputDist :=
  { kind := .normal, mean := [[[0]]], log_var := [[[0]]] }

/-- A concrete Bernoulli output distribution. -/
def someBernoulliDist : OutputDist :=
  { kind := .bernoulli, mean := [[[0]]], log_var := [[[0]]] }

/-! ### Helper lemmas -/

theorem error_bind {α β : Type} (e : PyError) (f : α → Except PyError β) :
    (Except.error e : Except PyError α) >>= f = .error e := rfl

theorem ok_bind {α β : Type} (x : α) (f : α → Except PyError β) :
    (Except.ok x : Except PyError α) >>= f = f x := rfl

theorem pure_bind_except {α β : Type} (x : α) (f : α → Except PyError β) :
    (pure x : Except PyError α) >>= f = f x := rfl

theorem exceptBind_ok {α β : Type} {a : Except PyError α} {f : α → Except PyError β}
    {b : β} (h : (a >>= f) = .ok b) : ∃ x, a = .ok x ∧ f x = .ok b := by
  cases a with
  | error e => exact absurd h (by simp [error_bind])
  | ok x => exact ⟨x, rfl, h⟩

theorem exceptBind_error {α β : Type} {a : Except PyError α} {f : α → Except PyError β}
    {e : PyError} (h : (a >>= f) = .error e) :
    a = .error e ∨ ∃ x, a = .ok x ∧ f x = .error e := by
  cases a with
  | error e2 =>
    rw [error_bind] at h
    injection h with he
    subst he
    exact Or.inl rfl
  | ok x => exact Or.inr ⟨x, rfl, h⟩

theorem pyGet_ok {α : Type} {l : List α} {i : Nat} {x : α} (h : pyGet l i = .ok x) :
    l.get? i = some x := by
  unfold pyGet at h
  cases hl : l.get? i <;> rw [hl] at h <;> simp_all

theorem pyGet_error_eq {α : Type} {l : List α} {i : Nat} {e : PyError}
    (h : pyGet l i = .error e) : e = .indexError := by
  unfold pyGet at h
  cases hl : l.get? i <;> rw [hl] at h <;> simp_all

theorem constructLevel_error_eq {c : ModelConfig} {i : Nat} {e : PyError}
    (h : constructLevel c i = .error e) : e = .indexError := by
  unfold constructLevel at h
  rcases exceptBind_error h with h1 | ⟨x1, hx1, h⟩
  · exact pyGet_error_eq h1
  rcases exceptBind_error h with h1 | ⟨x2, hx2, h⟩
  · exact pyGet_error_eq h1
  rcases exceptBind_error h with h1 | ⟨x3, hx3, h⟩
  · exact pyGet_error_eq h1
  rcases exceptBind_error h with h1 | ⟨x4, hx4, h⟩
  · exact pyGet_error_eq h1
  rcases exceptBind_error h with h1 | ⟨x5, hx5, h⟩
  · exact pyGet_error_eq h1
  rcases exceptBind_error h with h1 | ⟨x6, hx6, h⟩
  · exact pyGet_error_eq h1
  · exact absurd h (by simp)

theorem constructLevel_top_error (c : ModelConfig) (h : c.n_latent ≠ []) :
    constructLevel c (c.n_latent.length - 1) = .error .indexError := by
  cases hcl : constructLevel c (c.n_latent.length - 1) with
  | error e => rw [constructLevel_error_eq hcl]
  | ok lc =>
    exfalso
    unfold constructLevel at hcl
    rcases exceptBind_ok hcl with ⟨x1, hx1, hcl⟩
    rcases exceptBind_ok hcl with ⟨x2, hx2, hcl⟩
    rcases exceptBind_ok hcl with ⟨x3, hx3, hcl⟩
    rcases exceptBind_ok hcl with ⟨x4, hx4, hcl⟩
    rcases exceptBind_ok hcl with ⟨x5, hx5, hcl⟩
    have hsome := pyGet_ok hx5
    have hlt := List.get?_eq_some.mp hsome
    obtain ⟨hlt, _⟩ := hlt
    have hpos : 0 < c.n_latent.length := List.length_pos.mpr h
    omega

theorem buildLevels_error_eq {f : Nat → Except PyError LevelConfig} {l : List Nat}
    {e : PyError} (h : buildLevels f l = .error e)
    (hf : ∀ i e2, f i = .error e2 → e2 = .indexError) : e = .indexError := by
  induction l with
  | nil => exact absurd h (by simp [buildLevels])
  | cons i is ih =>
    unfold buildLevels at h
    rcases exceptBind_error h with h1 | ⟨x, hx, h⟩
    · exact hf i e h1
    rcases exceptBind_error h with h1 | ⟨xs, hxs, h⟩
    · exact ih h1
    · exact absurd h (by simp)

theorem buildLevels_ok_all {f : Nat → Except PyError LevelConfig} {l : List Nat}
    {ys : List LevelConfig} (h : buildLevels f l = .ok ys) :
    ∀ i ∈ l, ∃ lc, f i = .ok lc := by
  induction l generalizing ys with
  | nil => simp
  | cons j is ih =>
    unfold buildLevels at h
    rcases exceptBind_ok h with ⟨x, hx, h⟩
    rcases exceptBind_ok h with ⟨xs, hxs, _⟩
    intro i hi
    rcases List.mem_cons.mp hi with rfl | hi
    · exact ⟨x, hx⟩
    · exact ih hxs i hi

theorem torchInScope_false : torchInScope = false := rfl

theorem gradientContribution_name_error (lat : Latent0State) (ln : Tensor2 → Tensor2) :
    gradientContribution lat ln = .error (.nameError "torch") := rfl

theorem output_error_normal_name_error (d : OutputDist) (obs : ObsTensor)
    (texp : ℚ → ℚ) (h : d.kind = .normal) :
    output_error d obs texp = .error (.nameError "torch") := by
  cases d with
  | mk k mn lv =>
    change k = DistKind.normal at h
    subst h
    rfl

theorem output_error_unimplemented (d : OutputDist) (obs : ObsTensor) (texp : ℚ → ℚ)
    (h : d.kind = DistKind.bernoulli ∨ d.kind = DistKind.multinomial) :
    output_error d obs texp = .error .notImplementedError := by
  cases d with
  | mk k mn lv =>
    rcases h with h | h <;> (change k = _ at h; subst h; rfl)

theorem errorContribution_normal (lat : Latent0State) (d : OutputDist) (obs : Tensor2)
    (ln : Tensor2 → Tensor2) (texp : ℚ → ℚ) (h : d.kind = .normal) :
    errorContribution lat d obs ln texp = .error (.nameError "torch") := by
  unfold errorContribution
  rw [output_error_normal_name_error d _ texp h, error_bind]

theorem errorContribution_unimplemented (lat : Latent0State) (d : OutputDist)
    (obs : Tensor2) (ln : Tensor2 → Tensor2) (texp : ℚ → ℚ)
    (h : d.kind = DistKind.bernoulli ∨ d.kind = DistKind.multinomial) :
    errorContribution lat d obs ln texp = .error .notImplementedError := by
  unfold errorContribution
  rw [output_error_unimplemented d _ texp h, error_bind]

theorem foldr_genStep_eq_decodeLevels (gen : Bool) (n : Nat) (ls : List Level) :
    List.foldr (fun x y => genStep gen n y x) (none, []) ls = decodeLevels gen n ls := by
  induction ls with
  | nil => rfl
  | cons l ls ih =>
    rw [List.foldr_cons, ih]
    simp [decodeLevels, genStep]

theorem reverse_foldl_eq_decodeLevels (gen : Bool) (n : Nat) (ls : List Level) :
    ls.reverse.foldl (genStep gen n) (none, []) = decodeLevels gen n ls := by
  rw [List.foldl_reverse]
  exact foldr_genStep_eq_decodeLevels gen n ls

theorem decodeLevels_getElem_latent_init (gen : Bool) (n : Nat) (ls : List Level)
    (i : Nat) :
    ((decodeLevels gen n ls).2[i]?.map (fun l => l.latent_init)) =
      (ls[i]?.map (fun l => l.latent_init)) := by
  induction ls generalizing i with
  | nil => rfl
  | cons l ls ih =>
    cases i with
    | zero => simp [decodeLevels]
    | succ j => simpa [decodeLevels] using ih j

/-! ### Claim theorems -/

/-- C1: the claim says that on a consistent configuration (`n_latent`,
`n_layers_inf`, `n_units_inf` of length `L`; `n_layers_gen`, `n_units_gen`
of length `L+1`) `_construct` builds one LatentLevel per `n_latent` entry
with generative `n_in = n_latent[i+1]`, `n_units = n_units_gen[i+1]`. The
code follows that indexing for levels below the top (second conjunct:
level 0 of the consistent two-level configuration gets
`n_in = n_latent[1] = 32`, `n_units = n_units_gen[1] = 256`), but the same
expression `n_latent[level_ind+1]` is evaluated at the top level too, where
it is out of range, so construction raises `IndexError` and never builds
the stack (first conjunct). -/
theorem c1_construct_crashes_at_top :
    construct consistentConfig = .error .indexError
    ∧ (constructLevel consistentConfig 0).map
        (fun lc => (lc.generative_config.n_in, lc.generative_config.n_units)) =
      .ok (some 32, 256) :=
  ⟨rfl, rfl⟩

/-- C2 counterexample: on the inconsistent configuration (`n_units_inf`
shorter than `n_latent`) construction does not fail with a descriptive
configuration-error condition — it raises the generic `IndexError`. -/
theorem c2_counterexample :
    failsWithConfigurationError inconsistentConfig = false
    ∧ construct inconsistentConfig = .error .indexError :=
  ⟨rfl, rfl⟩

/-- C2 (amended): `_construct` performs no list-length validation at all.
Every configuration with a nonempty `n_latent` — lengths consistent or not —
fails with the generic `IndexError` raised by a list subscript inside the
level loop, never with a descriptive configuration-error condition. -/
theorem c2_construct_index_error (c : ModelConfig) (h : c.n_latent ≠ []) :
    construct c = .error .indexError := by
  cases hc : construct c with
  | ok ys =>
    exfalso
    have hmem : c.n_latent.length - 1 ∈ List.range c.n_latent.length := by
      rw [List.mem_range]
      have hpos : 0 < c.n_latent.length := List.length_pos.mpr h
      omega
    unfold construct at hc
    rcases buildLevels_ok_all hc _ hmem with ⟨lc, hlc⟩
    rw [constructLevel_top_error c h] at hlc
    exact absurd hlc (by simp)
  | error e =>
    unfold construct at hc
    rw [buildLevels_error_eq hc (fun i e2 h2 => constructLevel_error_eq h2)]

/-- C2 witness: the amended theorem applied to the concrete inconsistent
configuration. -/
theorem c2_construct_index_error_witness :
    construct inconsistentConfig = .error .indexError :=
  c2_construct_index_error inconsistentConfig (by decide)

/-- C3: the claim says `inference_parameters()` and
`generative_parameters()` return disjoint parameter sets covering every
trainable parameter, the generative set including the output network's and
the output distribution's parameter-producing sub-networks' parameters. In
the code, line 176 reads `list(self.output_mean.parameters)` — the method
is never called — so `generative_parameters` raises
`TypeError: method object is not iterable` on every model and returns no
set at all. -/
theorem c3_generative_parameters_type_error (m : ParamModel) :
    generative_parameters m = .error (.typeError "method object is not iterable") :=
  rfl

/-- C4 counterexample: with `inference_procedure = ['error']` and a
Bernoulli output distribution, `_get_encoding_form` raises
`NotImplementedError` (from `_output_error`, before any use of `torch`),
not the `NameError` the claim asserts for every mode list containing
`'error'`. -/
theorem c4_counterexample :
    get_encoding_form ["error"] someLatentState someBernoulliDist [[0]] id
      (fun q => q) = .error .notImplementedError :=
  rfl

/-- C4 (amended): the module never binds the name `torch`
(`import torch.nn as nn` binds only `nn`), so `_get_encoding_form` raises
`NameError` at `torch.cat` whenever `'gradient'` is in the inference
procedure; with `'error'` (and no `'gradient'`) it raises `NameError` (from
`torch.exp` inside `_output_error`) when the output distribution is Normal,
but `NotImplementedError` when it is Bernoulli or Multinomial; and
`_output_error` with a Normal output distribution always raises `NameError`
at `torch.exp` instead of returning a value. -/
theorem c4_torch_unbound_name_error (proc : List String) (lat : Latent0State)
    (d : OutputDist) (obs : Tensor2) (ln : Tensor2 → Tensor2) (texp : ℚ → ℚ) :
    torchInScope = false
    ∧ ("gradient" ∈ proc →
        get_encoding_form proc lat d obs ln texp = .error (.nameError "torch"))
    ∧ ("gradient" ∉ proc → "error" ∈ proc →
        d.kind = .normal →
        get_encoding_form proc lat d obs ln texp = .error (.nameError "torch"))
    ∧ ("gradient" ∉ proc → "error" ∈ proc →
        (d.kind = DistKind.bernoulli ∨ d.kind = DistKind.multinomial) →
        get_encoding_form proc lat d obs ln texp = .error .notImplementedError)
    ∧ (d.kind = .normal →
        output_error d (.d2 obs) texp = .error (.nameError "torch")) := by
  refine ⟨rfl, ?_, ?_, ?_, ?_⟩
  · intro hg
    simp [get_encoding_form, hg, gradientContribution_name_error, error_bind]
  · intro hg he hk
    simp [get_encoding_form, hg, he, pure_bind_except,
          errorContribution_normal lat d obs ln texp hk, error_bind]
  · intro hg he hk
    simp [get_encoding_form, hg, he, pure_bind_except,
          errorContribution_unimplemented lat d obs ln texp hk, error_bind]
  · intro hk
    exact output_error_normal_name_error d _ texp hk

/-- C4 witness: the amended theorem applied at concrete inputs, discharging
the mode-list and distribution-kind hypotheses. -/
theorem c4_torch_unbound_name_error_witness :
    get_encoding_form ["gradient"] someLatentState someNormalDist [[0]] id
        (fun q => q) = .error (.nameError "torch")
    ∧ get_encoding_form ["error"] someLatentState someNormalDist [[0]] id
        (fun q => q) = .error (.nameError "torch")
    ∧ output_error someNormalDist (.d2 [[0]]) (fun q => q) = .error (.nameError "torch") :=
  ⟨(c4_torch_unbound_name_error ["gradient"] someLatentState someNormalDist
      [[0]] id (fun q => q)).2.1 (by decide),
   (c4_torch_unbound_name_error ["error"] someLatentState someNormalDist
      [[0]] id (fun q => q)).2.2.1 (by decide) (by decide) rfl,
   (c4_torch_unbound_name_error ["error"] someLatentState someNormalDist
      [[0]] id (fun q => q)).2.2.2.2 rfl⟩

/-- C5: for a Bernoulli or Multinomial output distribution,
`_output_error` raises `NotImplementedError` (lines 114–118) and does not
return a value. -/
theorem c5_output_error_not_implemented (d : OutputDist) (obs : ObsTensor)
    (texp : ℚ → ℚ)
    (h : d.kind = DistKind.bernoulli ∨ d.kind = DistKind.multinomial) :
    output_error d obs texp = .error .notImplementedError :=
  output_error_unimplemented d obs texp h

/-- C5 witness: the theorem applied to a concrete Bernoulli distribution. -/
theorem c5_output_error_not_implemented_witness :
    output_error someBernoulliDist (.d3 [[[0]]]) (fun q => q) =
      .error .notImplementedError :=
  c5_output_error_not_implemented someBernoulliDist (.d3 [[[0]]]) (fun q => q)
    (Or.inl rfl)

/-- C6: with `inference_input_form = ['observation']` (exactly one active
mode), `_get_encoding_form` returns exactly `observation - 0.5`, with no
concatenation applied (line 83 and the single-element early return on
line 98). -/
theorem c6_observation_only (lat : Latent0State) (d : OutputDist) (obs : Tensor2)
    (ln : Tensor2 → Tensor2) (texp : ℚ → ℚ) :
    get_encoding_form ["observation"] lat d obs ln texp =
      .ok (obs.map (fun row => row.map (fun x => x - 1 / 2))) :=
  rfl

/-- C7: the claim says multiple active modes are concatenated along the
feature axis with width the sum of the contributions. In the code the first
`torch.cat` raises `NameError` because the module never imports `torch`, so
for a multi-mode inference procedure `_get_encoding_form` raises instead of
returning a concatenation — here evaluated on
`['observation', 'gradient']`. -/
theorem c7_multi_mode_name_error :
    get_encoding_form ["observation", "gradient"] someLatentState someNormalDist
      [[0]] id (fun q => q) = .error (.nameError "torch") :=
  rfl

/-- C8: `generate` iterates the latent levels top-to-bottom (the reverse of
the bottom-up `latent_levels` order that `infer` uses), seeding the top
level with `None` and handing each level's decoding to the level below
(`decodeLevels`); the bottom decoding goes through the output network, the
output distribution's mean is set from it, its log-variance is set from it
exactly when the output distribution is Normal (otherwise it keeps its
previous value), and the returned value is a sample drawn from the output
distribution's updated parameters. -/
theorem c8_generate_top_down (m : FCModel) (gen : Bool) (n_samples : Nat) :
    (generate m gen n_samples).2.latent_levels =
        (decodeLevels gen n_samples m.latent_levels).2
    ∧ (generate m gen n_samples).2.dist_mean =
        m.output_mean (m.output_network (decodeLevels gen n_samples m.latent_levels).1)
    ∧ (generate m gen n_samples).2.dist_log_var =
        (if m.dist_kind = .normal then
           m.output_log_var
             (m.output_network (decodeLevels gen n_samples m.latent_levels).1)
         else m.dist_log_var)
    ∧ (generate m gen n_samples).1 =
        m.sampleF m.dist_kind (generate m gen n_samples).2.dist_mean
          (generate m gen n_samples).2.dist_log_var := by
  refine ⟨?_, ?_, ?_, ?_⟩ <;>
    simp [generate, foldr_genStep_eq_decodeLevels]

/-- C9: the claim says `_output_error` with a Normal output distribution
returns the broadcast observation minus the detached mean, scaled by the
detached variance and averaged over the sample dimension. The code
evaluates the subtraction but then calls `torch.exp`, whose callee lookup
raises `NameError` because `torch` is never imported, so no residual is
ever returned — here evaluated at a concrete Normal distribution and a 2-D
observation. -/
theorem c9_output_error_normal_crashes :
    output_error { kind := .normal, mean := [[[(1 : ℚ)]]], log_var := [[[0]]] }
      (.d2 [[0]]) (fun q => q) = .error (.nameError "torch") :=
  rfl

/-- C10: `re_init` first runs one unconditional prior-generation pass
(`generate(gen=True, n_samples=1)`) — the resulting output-distribution
statistics are exactly those of that pass — and then resets every level's
latent variable to the level's initial state. -/
theorem c10_re_init (m : FCModel) :
    (re_init m).dist_mean = (generate m true 1).2.dist_mean
    ∧ (re_init m).dist_log_var = (generate m true 1).2.dist_log_var
    ∧ (re_init m).latent_levels =
        ((generate m true 1).2).latent_levels.map latentReInit
    ∧ ∀ i : Nat,
        ((re_init m).latent_levels[i]?.map (fun l => l.st.latent)) =
          (m.latent_levels[i]?.map (fun l => l.latent_init)) := by
  refine ⟨rfl, rfl, rfl, ?_⟩
  intro i
  have h1 : (generate m true 1).2.latent_levels =
      (decodeLevels true 1 m.latent_levels).2 := by
    simp [generate, foldr_genStep_eq_decodeLevels]
  show (((generate m true 1).2.latent_levels.map latentReInit)[i]?.map
      (fun l => l.st.latent)) = _
  rw [h1, List.getElem?_map, Option.map_map]
  exact decodeLevels_getElem_latent_init true 1 m.latent_levels i

end IterInf
